import Mathlib

/-!
# Verification of the cbus MQTT gateway (cmqttd)

A shallow embedding of the protocol and coordination engine of the
mitchell-johnson/cbus repository: the PCI session's confirmation-code
registry, pending-send table and retry loop (cbus/protocol/pciprotocol.py),
the topic and address helpers (cbus/daemon/topics.py), and the MQTT
gateway's command and event paths (cbus/daemon/mqtt_gateway.py,
cbus/daemon/cmqttd.py).

Python strings are modelled as Lean strings, Python dicts (which preserve
insertion order) as association lists, wall-clock timestamps as integers
(seconds), and coroutine effects (transport writes, MQTT publishes,
log records) as explicit event lists returned by each translated function.
-/

namespace Cbus

/-! ## Generic helpers: Python-style string and dict operations -/

/-- Python str.startswith, on char lists. -/
def listStartsWith : List Char → List Char → Bool
  | [], _ => true
  | _ :: _, [] => false
  | p :: ps, c :: cs => p = c && listStartsWith ps cs

/-- Python `s[n:]`, on char lists. -/
def listDropN (n : Nat) (s : List Char) : List Char := List.drop n s

/-- Python str.endswith, on char lists. -/
def listEndsWith (suffix s : List Char) : Bool :=
  listStartsWith suffix.reverse s.reverse

/-- The first segment of Python `s.split(sep, maxsplit=1)`: the characters
before the first occurrence of `sep` (all of `s` if `sep` is absent). -/
def takeUntil (sep : Char) : List Char → List Char
  | [] => []
  | c :: cs => if c = sep then [] else c :: takeUntil sep cs

/-- Python `s.split(sep)` for a single-character separator: splits on every
occurrence and keeps empty segments. -/
def pySplit (sep : Char) : List Char → List (List Char)
  | [] => [[]]
  | c :: cs =>
    match pySplit sep cs with
    | [] => [[]]
    | h :: t => if c = sep then [] :: h :: t else (c :: h) :: t

/-- Value of an ASCII decimal digit, if the character is one. -/
def digitVal (c : Char) : Option Nat :=
  if '0' ≤ c ∧ c ≤ '9' then some (c.toNat - 48) else none

/-- Auxiliary fold for `pyIntList`. -/
def pyIntAux : List Char → Nat → Option Nat
  | [], acc => some acc
  | c :: cs, acc =>
    match digitVal c with
    | some d => pyIntAux cs (acc * 10 + d)
    | none => none

/-- Python `int(s)` restricted to the non-negative decimal strings that occur
in this program (topic segments and JSON field strings): `none` models the
`ValueError` that `int` raises on a non-numeric string. -/
def pyIntList : List Char → Option Nat
  | [] => none
  | c :: cs => pyIntAux (c :: cs) 0

/-- Python `int(s)` on a Lean string. -/
def pyInt (s : String) : Option Nat := pyIntList s.data

/-- Python str.upper for the ASCII strings handled by the gateway. -/
def pyUpperChar (c : Char) : Char :=
  if 'a' ≤ c ∧ c ≤ 'z' then Char.ofNat (c.toNat - 32) else c

/-- Python str.upper on a Lean string. -/
def pyUpper (s : String) : String := ⟨s.data.map pyUpperChar⟩

/-- The decimal rendering of a natural number, as in Python `f"{n}"`. -/
def decimal (n : Nat) : List Char := Nat.toDigits 10 n

/-- Python `f"{n:03d}"`: decimal rendering left-padded with zeros to
(at least) three characters. -/
def decimal3 (n : Nat) : List Char :=
  let s := decimal n
  List.replicate (3 - s.length) '0' ++ s

/-- Lookup in a Python dict modelled as an insertion-ordered association
list (`d[k]` / `d.get(k)`). -/
def dictGet {α : Type} (d : List (Nat × α)) (k : Nat) : Option α :=
  match d with
  | [] => none
  | (k', v) :: t => if k' = k then some v else dictGet t k

/-- Python `k in d` on an association-list dict. -/
def dictContains {α : Type} (d : List (Nat × α)) (k : Nat) : Bool :=
  (dictGet d k).isSome

/-- Python `d[k] = v`: replaces the value in place if the key is present
(its position is preserved), otherwise appends a new entry, matching the
insertion-order semantics of a Python dict. -/
def dictSet {α : Type} (d : List (Nat × α)) (k : Nat) (v : α) : List (Nat × α) :=
  match d with
  | [] => [(k, v)]
  | (k', v') :: t => if k' = k then (k, v) :: t else (k', v') :: dictSet t k v

/-- Python `del d[k]` (no-op when the key is absent, since every call site
checks membership first). -/
def dictDel {α : Type} (d : List (Nat × α)) (k : Nat) : List (Nat × α) :=
  match d with
  | [] => []
  | (k', v') :: t => if k' = k then t else (k', v') :: dictDel t k

/-- Stable insertion used by `sortByValue`. -/
def insertByValue (x : Nat × Int) : List (Nat × Int) → List (Nat × Int)
  | [] => [x]
  | y :: ys => if x.2 < y.2 then x :: y :: ys else y :: insertByValue x ys

/-- Python `sorted(d.items(), key=lambda x: x[1])`: a stable sort of an
association list by its values (here: timestamps); each element is
inserted after the already-placed elements of equal value. -/
def sortByValue (xs : List (Nat × Int)) : List (Nat × Int) :=
  xs.foldl (fun acc x => insertByValue x acc) []

/-! ## Constants from `cbus/common.py`

`cbus/common.py` itself is not part of the source tree; the constants the
daemon imports from it are modelled from the spec. -/

/-- Modelled from the spec: the confirmation-code pool is the fixed
20-character alphabet `hijklmnopqrstuvwxyzg` (`cbus/common.py` is absent
from the tree; the spec names this alphabet as the canonical definition). -/
def CONFIRMATION_CODES : List Nat :=
  [104, 105, 106, 107, 108, 109, 110, 111, 112, 113,
   114, 115, 116, 117, 118, 119, 120, 121, 122, 103]

/-- Modelled from the spec: the Lighting application address (0x38). -/
def Application.LIGHTING : Nat := 56

/-- Modelled from the spec: the recognised application addresses — the
lighting application range together with Temperature (0x19), Trigger (0xCA),
Enable (0xCB), Clock (0xDF) and Status Request (0xFF). -/
def recognisedApplications : List Nat :=
  List.range' 48 48 ++ [0x19, 0xCA, 0xCB, 0xDF, 0xFF]

/-- Modelled from the spec: `check_ga` accepts a group address `ga` with
`1 ≤ ga ≤ 255` and raises `ValueError` otherwise. -/
def check_ga (ga : Nat) : Bool := 1 ≤ ga && ga ≤ 255

/-- Modelled from the spec: `END_COMMAND` is the carriage-return terminator
of a host→PCI command frame. -/
def END_COMMAND : Nat := 13

/-! ## Topic and address helpers (`cbus/daemon/topics.py`) -/

def LIGHT_TOPIC_HEAD : String := "homeassistant/light/cbus_"

def BINSENSOR_TOPIC_HEAD : String := "homeassistant/binary_sensor/cbus_"

/-- `ga_string(group_addr, app_addr, zeros)`: the textual form of a C-Bus
(application, group) pair.  Lighting renders as the bare group number
(three-digit padded when `zeros`); any other application renders as
`"%03d_%03d" % (app, group)`. -/
def ga_string (group_addr app_addr : Nat) (zeros : Bool) : String :=
  if app_addr = Application.LIGHTING then
    if zeros then ⟨decimal3 group_addr⟩ else ⟨decimal group_addr⟩
  else
    ⟨decimal3 app_addr ++ '_' :: decimal3 group_addr⟩

/-- `set_topic(group_addr, app_addr)`: the MQTT command topic. -/
def set_topic (group_addr app_addr : Nat) : String :=
  LIGHT_TOPIC_HEAD ++ ga_string group_addr app_addr false ++ "/set"

/-- `state_topic(group_addr, app_addr)`: the MQTT state topic. -/
def state_topic (group_addr app_addr : Nat) : String :=
  LIGHT_TOPIC_HEAD ++ ga_string group_addr app_addr false ++ "/state"

/-- `conf_topic(group_addr, app_addr)`: the MQTT discovery config topic. -/
def conf_topic (group_addr app_addr : Nat) : String :=
  LIGHT_TOPIC_HEAD ++ ga_string group_addr app_addr false ++ "/config"

/-- `bin_sensor_state_topic(group_addr, app_addr)`. -/
def bin_sensor_state_topic (group_addr app_addr : Nat) : String :=
  BINSENSOR_TOPIC_HEAD ++ ga_string group_addr app_addr false ++ "/state"

/-- `bin_sensor_conf_topic(group_addr, app_addr)`. -/
def bin_sensor_conf_topic (group_addr app_addr : Nat) : String :=
  BINSENSOR_TOPIC_HEAD ++ ga_string group_addr app_addr false ++ "/config"

/-- `get_topic_group_address(topic)` from `cbus/daemon/mqtt_gateway.py`:
strips the light-topic head (`ValueError`, i.e. `none`, otherwise), takes
the next path segment, splits it on `_` (two or more parts give
`(app, group)` from the first two, one part gives `(Lighting, group)`),
converts both to int and validates the group with `check_ga`.  Returns
`(group_addr, app_addr)`. -/
def get_topic_group_address (topic : String) : Option (Nat × Nat) :=
  if listStartsWith LIGHT_TOPIC_HEAD.data topic.data then
    match pySplit '_'
        (takeUntil '/' (listDropN LIGHT_TOPIC_HEAD.data.length topic.data)) with
    | [] => none
    | [a1] =>
      match pyIntList a1 with
      | some ga => if check_ga ga then some (ga, Application.LIGHTING) else none
      | none => none
    | a1 :: a2 :: _ =>
      match pyIntList a1, pyIntList a2 with
      | some aa, some ga => if check_ga ga then some (ga, aa) else none
      | _, _ => none
  else none

/-! ## Packets (`cbus/protocol/...`)

The packet classes themselves (`reset_packet.py`, `dm_packet.py`,
`pm_packet.py`, `pp_packet.py`, the SAL and CAL modules and
`cbus/common.py`) are not part of the source tree — only
`pciprotocol.py` is.  The packet data model and its encoding are therefore
modelled from the spec (§4.1): a closed sum type per packet/SAL/CAL
variant, with Reset and Device Management as basic-mode special client
packets. -/

/-- SAL variants (spec §4.1). -/
inductive SAL
  | lightingOn (group_address application_address : Nat)
  | lightingOff (group_address application_address : Nat)
  | lightingRamp (group_address application_address duration level : Nat)
  | lightingTerminateRamp (group_address application_address : Nat)
  | clockRequest
  | clockUpdate (val : Nat)
  | statusRequest (level_request : Bool) (group_address child_application : Nat)
deriving DecidableEq

/-- Extended CAL status reports (spec §4.1): Binary or Level; a level of
`none` means "not present in block". -/
inductive Report
  | binary (states : List Nat)
  | level (levels : List (Option Nat))
deriving DecidableEq

/-- CAL variants (spec §4.1). -/
inductive CAL
  | identify (attr : Nat)
  | extended (child_application block_start : Nat) (report : Report)
deriving DecidableEq

/-- Packet variants (spec §4.1). -/
inductive Packet
  | reset
  | deviceManagement (parameter value : Nat)
  | pointToMultipoint (source_address : Option Nat) (sals : List SAL)
  | pointToPoint (unit_address : Nat) (cals : List CAL)
  | confirmation (code : Nat) (success : Bool)
  | pciError
  | powerOn
deriving DecidableEq

/-- Modelled from the spec: Reset and Device Management are the
special client packets — "reset/device-management runs in basic mode"
(glossary), transmitted without confirmation (§4.4). -/
def isSpecialClientPacket : Packet → Bool
  | .reset => true
  | .deviceManagement _ _ => true
  | _ => false

/-- ASCII code of an uppercase hex digit. -/
def hexDigit (n : Nat) : Nat := if n < 10 then 48 + n else 55 + n

/-- A byte as two uppercase ASCII hex digits. -/
def byteHex (b : Nat) : List Nat := [hexDigit (b / 16), hexDigit (b % 16)]

/-- Modelled from the spec: the hex encoding of one SAL. -/
def encodeSAL : SAL → List Nat
  | .lightingOn g a => byteHex a ++ byteHex 0x79 ++ byteHex g
  | .lightingOff g a => byteHex a ++ byteHex 0x01 ++ byteHex g
  | .lightingRamp g a d l => byteHex a ++ byteHex d ++ byteHex g ++ byteHex l
  | .lightingTerminateRamp g a => byteHex a ++ byteHex 0x09 ++ byteHex g
  | .clockRequest => byteHex 0xDF ++ byteHex 0x11
  | .clockUpdate v => byteHex 0xDF ++ byteHex 0x08 ++ byteHex v
  | .statusRequest _ g a => byteHex 0xFF ++ byteHex a ++ byteHex g

/-- Modelled from the spec: the hex encoding of one CAL. -/
def encodeCAL : CAL → List Nat
  | .identify attr => byteHex 0x21 ++ byteHex attr
  | .extended a s r => byteHex 0x86 ++ byteHex a ++ byteHex s ++
      (match r with
       | .binary states => states.flatMap byteHex
       | .level levels => levels.flatMap fun l => byteHex (l.getD 0))

/-- Modelled from the spec (§4.1/§6.1): `encode_packet` renders a packet as
the uppercase-ASCII-hex command body.  Reset is the basic-mode `~`; device
management is `A3<parameter>00<value>` (the byte strings the source quotes
in its own comments); the remaining variants use their header byte followed
by their payload bytes in hex. -/
def encodePacket : Packet → List Nat
  | .reset => [126]
  | .deviceManagement p v => [65, 51] ++ byteHex p ++ [48, 48] ++ byteHex v
  | .pointToMultipoint _ sals => byteHex 0x05 ++ sals.flatMap encodeSAL
  | .pointToPoint unit cals => byteHex 0x06 ++ byteHex unit ++ cals.flatMap encodeCAL
  | .confirmation code _ => [code]
  | .pciError => [33]
  | .powerOn => [43]

/-! ## PCI session state (`cbus/protocol/pciprotocol.py`) -/

/-- One value of `_pending_confirmations`: `(packet_data, attempts,
last_attempt_time)`. -/
structure PendingEntry where
  packetData : List Nat
  attempts : Nat
  lastAttemptTime : Int
deriving DecidableEq

/-- The mutable state of a `PCIProtocol` instance that the confirmation
machinery touches: `_confirmation_codes_in_use` (code → acquisition
timestamp), `_pending_confirmations` (code → entry) and
`_next_confirmation_index`.  Both dicts are insertion-ordered association
lists, like Python dicts. -/
structure ProtoState where
  confirmationCodesInUse : List (Nat × Int)
  pendingConfirmations : List (Nat × PendingEntry)
  nextConfirmationIndex : Nat
deriving DecidableEq

/-- The freshly-constructed protocol state (`__init__`). -/
def initialProtoState : ProtoState := ⟨[], [], 0⟩

/-- Log records emitted by the session, tagged with the offending code
where the source logs one. -/
inductive LogEvent
  | releasedCode (code : Nat)            -- info: released after ack/abandon
  | releaseNotInUse (code : Nat)         -- warning: release of unused code
  | timedOutCode (code : Nat)            -- warning: code timed out
  | releasedTimedOutCount (n : Nat)      -- info: released n timed out codes
  | tooManyCodesInUse (n : Nat)          -- warning: forcing cleanup of oldest
  | forceReleasedCode (code : Nat)       -- warning: force released
  | highPendingCount (n : Nat)           -- warning: many pending confirmations
  | giveUpOnCode (code : Nat)            -- warning: giving up after max retries
  | resendingPacket (code attempt : Nat) -- info: resending packet
  | unstableConnection (n : Nat)         -- error: consecutive failures
  | allCodesInUse                        -- warning: releasing oldest code
  | allocatedCode (code : Nat)           -- info: allocated confirmation code
deriving DecidableEq

/-- Whether a log record is at warning level. -/
def LogEvent.isWarning : LogEvent → Bool
  | .releaseNotInUse _ => true
  | .timedOutCode _ => true
  | .tooManyCodesInUse _ => true
  | .forceReleasedCode _ => true
  | .highPendingCount _ => true
  | .giveUpOnCode _ => true
  | .allCodesInUse => true
  | _ => false

/-- `_release_confirmation_code(code)`: releases a code back to the pool;
warns when the code was not in use; also drops the code from the pending
table when present. -/
def _release_confirmation_code (code : Nat) (st : ProtoState) :
    ProtoState × List LogEvent :=
  if dictContains st.confirmationCodesInUse code then
    ({ st with
        confirmationCodesInUse := dictDel st.confirmationCodesInUse code,
        pendingConfirmations :=
          if dictContains st.pendingConfirmations code then
            dictDel st.pendingConfirmations code
          else st.pendingConfirmations },
     [.releasedCode code])
  else (st, [.releaseNotInUse code])

/-- Codes whose in-use age exceeds `_confirmation_timeout` (30 s). -/
def timedOutCodes (now : Int) (inUse : List (Nat × Int)) : List (Nat × Int) :=
  inUse.filter fun p => 30 < now - p.2

/-- Removes a list of codes from both dicts of the state. -/
def removeCodes (codes : List Nat) (st : ProtoState) : ProtoState :=
  { st with
      confirmationCodesInUse :=
        codes.foldl (fun d c => dictDel d c) st.confirmationCodesInUse,
      pendingConfirmations :=
        codes.foldl (fun d c => dictDel d c) st.pendingConfirmations }

/-- `_check_and_release_timed_out_codes()`: drops every code older than the
30 s timeout from both dicts (one warning each), then — the safety check —
when more than 90% of the 20 codes are still in use, force-releases the
oldest quarter (at least one), sorted stably by acquisition timestamp. -/
def _check_and_release_timed_out_codes (now : Int) (st : ProtoState) :
    ProtoState × List LogEvent :=
  let timed_out := timedOutCodes now st.confirmationCodesInUse
  let st1 := removeCodes (timed_out.map Prod.fst) st
  let logs1 := timed_out.map fun p => LogEvent.timedOutCode p.1
  let logs2 :=
    if timed_out.length ≠ 0 then [LogEvent.releasedTimedOutCount timed_out.length]
    else []
  if 18 < st1.confirmationCodesInUse.length then
    let codes_by_age := sortByValue st1.confirmationCodesInUse
    let codes_to_force_release :=
      codes_by_age.take (max 1 (codes_by_age.length / 4))
    let st2 := removeCodes (codes_to_force_release.map Prod.fst) st1
    (st2,
     logs1 ++ logs2 ++
       [LogEvent.tooManyCodesInUse st1.confirmationCodesInUse.length] ++
       codes_to_force_release.map fun p => LogEvent.forceReleasedCode p.1)
  else (st1, logs1 ++ logs2)

/-- The scan loop of `_get_confirmation_code`: up to `fuel` (= 20) probes of
`CONFIRMATION_CODES[idx]`, advancing the cursor modulo 20, skipping codes
in use and, in the second pass after a forced release, also skipping
`avoid`.  Returns the free code and the advanced cursor. -/
def scanFreeCode (inUse : List (Nat × Int)) (avoid : Option Nat) :
    Nat → Nat → Option (Nat × Nat)
  | _, 0 => none
  | idx, fuel + 1 =>
    let code := CONFIRMATION_CODES.getD idx 0
    let idx' := (idx + 1) % CONFIRMATION_CODES.length
    if avoid ≠ some code ∧ ¬dictContains inUse code then some (code, idx')
    else scanFreeCode inUse avoid idx' fuel

/-- First element of an association list with minimal value, as Python
`min(items, key=lambda x: x[1])`. -/
def minByValue (x : Nat × Int) (xs : List (Nat × Int)) : Nat × Int :=
  xs.foldl (fun b y => if y.2 < b.2 then y else b) x

/-- `_get_confirmation_code()`: reaps timed-out codes, then scans the
20-code alphabet from the rotating cursor for a free code and allocates it
with the current timestamp.  When every code is in use it force-releases
the oldest code immediately and allocates the next free code (preferring a
code other than the one just released, re-using it only as a last resort).
It always returns a code without waiting. -/
def _get_confirmation_code (now : Int) (st : ProtoState) :
    Nat × ProtoState × List LogEvent :=
  let (st1, logs1) := _check_and_release_timed_out_codes now st
  match scanFreeCode st1.confirmationCodesInUse none
      st1.nextConfirmationIndex CONFIRMATION_CODES.length with
  | some (code, idx') =>
    (code,
     { st1 with
         confirmationCodesInUse := dictSet st1.confirmationCodesInUse code now,
         nextConfirmationIndex := idx' },
     logs1 ++ [.allocatedCode code])
  | none =>
    match st1.confirmationCodesInUse with
    | [] =>
      let code := CONFIRMATION_CODES.getD 0 0
      (code,
       { st1 with
           confirmationCodesInUse := dictSet st1.confirmationCodesInUse code now },
       logs1 ++ [.allCodesInUse, .allocatedCode code])
    | u :: us =>
      let oldest_code := (minByValue u us).1
      let st2 := removeCodes [oldest_code] st1
      let logs2 := logs1 ++ [.allCodesInUse, .forceReleasedCode oldest_code]
      match scanFreeCode st2.confirmationCodesInUse (some oldest_code)
          st2.nextConfirmationIndex CONFIRMATION_CODES.length with
      | some (code, idx') =>
        (code,
         { st2 with
             confirmationCodesInUse := dictSet st2.confirmationCodesInUse code now,
             nextConfirmationIndex := idx' },
         logs2 ++ [.allocatedCode code])
      | none =>
        (oldest_code,
         { st2 with
             confirmationCodesInUse :=
               dictSet st2.confirmationCodesInUse oldest_code now },
         logs2 ++ [.allocatedCode oldest_code])

/-- The record of one `_send`: the packet, the prepared bytes written to
the transport, and the confirmation code appended (if any). -/
structure SendRec where
  packet : Packet
  data : List Nat
  confCode : Option Nat
deriving DecidableEq

/-- `_prepare_packet(cmd, confirmation, basic_mode)`: special client
packets force basic mode and no confirmation; non-basic-mode packets gain
the leading backslash (0x5C); a requested confirmation code is acquired
and appended; the frame ends with `END_COMMAND` (CR).  (`checksum` is the
constant `False` in the source, so no checksum is ever added.) -/
def _prepare_packet (cmd : Packet) (confirmation basic_mode : Bool)
    (now : Int) (st : ProtoState) :
    List Nat × Option Nat × ProtoState × List LogEvent :=
  let basic_mode := if isSpecialClientPacket cmd then true else basic_mode
  let confirmation := if isSpecialClientPacket cmd then false else confirmation
  let cmd_bytes := encodePacket cmd
  let cmd_bytes := if ¬basic_mode then 92 :: cmd_bytes else cmd_bytes
  if confirmation then
    let r := _get_confirmation_code now st
    (cmd_bytes ++ [r.1] ++ [END_COMMAND], some r.1, r.2.1, r.2.2)
  else
    (cmd_bytes ++ [END_COMMAND], none, st, [])

/-- `_send(cmd, confirmation, basic_mode)`: prepares the frame, writes it
to the transport, and — when a confirmation code was allocated — inserts
`(prepared_data, 1, now)` into the pending table under that code. -/
def _send (cmd : Packet) (confirmation basic_mode : Bool)
    (now : Int) (st : ProtoState) :
    SendRec × ProtoState × List LogEvent :=
  let r := _prepare_packet cmd confirmation basic_mode now st
  let prepared_data := r.1
  let conf_code := r.2.1
  let st1 := r.2.2.1
  match conf_code with
  | some code =>
    (⟨cmd, prepared_data, some code⟩,
     { st1 with
         pendingConfirmations :=
           dictSet st1.pendingConfirmations code ⟨prepared_data, 1, now⟩ },
     r.2.2.2)
  | none => (⟨cmd, prepared_data, none⟩, st1, r.2.2.2)

/-- `pci_reset()`: three Reset packets followed by the four device
management packets (0x21←0xFF, 0x22←0xFF, 0x42←0x0E, 0x30←0x79), each sent
through `_send` (the device-management calls with `basic_mode=True`).
Returns the final state and the sequence of send records. -/
def pci_reset (now : Int) (st : ProtoState) : ProtoState × List SendRec :=
  let r1 := _send .reset true false now st
  let r2 := _send .reset true false now r1.2.1
  let r3 := _send .reset true false now r2.2.1
  let r4 := _send (.deviceManagement 0x21 0xFF) true true now r3.2.1
  let r5 := _send (.deviceManagement 0x22 0xFF) true true now r4.2.1
  let r6 := _send (.deviceManagement 0x42 0x0E) true true now r5.2.1
  let r7 := _send (.deviceManagement 0x30 0x79) true true now r6.2.1
  (r7.2.1, [r1.1, r2.1, r3.1, r4.1, r5.1, r6.1, r7.1])

/-! ## The retry loop (`_check_pending_confirmations`) -/

/-- Pending entries due for action this tick: last-attempt age at least the
1 s retry interval. -/
def dueEntries (now : Int) (pending : List (Nat × PendingEntry)) :
    List (Nat × PendingEntry) :=
  pending.filter fun p => 1 ≤ now - p.2.lastAttemptTime

/-- Processes the abandonment list of one retry tick: for each code a
"giving up" warning, removal from the pending table, release of the code,
and the consecutive-failure tally (an error log and a tally reset at 10). -/
def processAbandons : ProtoState → Nat → List Nat →
    ProtoState × Nat × List LogEvent
  | st, cf, [] => (st, cf, [])
  | st, cf, code :: rest =>
    let st1 :=
      if dictContains st.pendingConfirmations code then
        { st with pendingConfirmations := dictDel st.pendingConfirmations code }
      else st
    let r := _release_confirmation_code code st1
    let cf1 := cf + 1
    let logs1 := [LogEvent.giveUpOnCode code] ++ r.2
    if 10 ≤ cf1 then
      match processAbandons r.1 0 rest with
      | (st2, cf2, logs2) => (st2, cf2, logs1 ++ [.unstableConnection cf1] ++ logs2)
    else
      match processAbandons r.1 cf1 rest with
      | (st2, cf2, logs2) => (st2, cf2, logs1 ++ logs2)

/-- Processes the retry list of one retry tick: for each `(code, data)`
pair, when the code is still pending its attempt count is incremented and
its timestamp set to `now` (with an info log), and the stored bytes are
rewritten to the transport unconditionally. -/
def processRetries (now : Int) : ProtoState → List (Nat × List Nat) →
    ProtoState × List (List Nat) × List LogEvent
  | st, [] => (st, [], [])
  | st, (code, packet_data) :: rest =>
    let st1 :=
      match dictGet st.pendingConfirmations code with
      | some e =>
        { st with
            pendingConfirmations :=
              dictSet st.pendingConfirmations code
                ⟨packet_data, e.attempts + 1, now⟩ }
      | none => st
    let logs1 :=
      match dictGet st.pendingConfirmations code with
      | some e => [LogEvent.resendingPacket code (e.attempts + 1)]
      | none => []
    match processRetries now st1 rest with
    | (st2, writes2, logs2) => (st2, packet_data :: writes2, logs1 ++ logs2)

/-- One iteration of the `_check_pending_confirmations` retry loop (after
its 1 s sleep): reap timed-out codes, warn when over 20 sends are pending,
partition the due entries into retries (`attempts < 3`) and abandonments
(`attempts ≥ 3`), process abandonments (resetting the consecutive-failure
tally when there are none), then process retries.  Returns the new state,
the new tally, the transport writes, and the logs. -/
def retryTick (now : Int) (st : ProtoState) (cf : Nat) :
    ProtoState × Nat × List (List Nat) × List LogEvent :=
  let r0 := _check_and_release_timed_out_codes now st
  let st1 := r0.1
  let logs0 := r0.2
  let logs1 :=
    if 20 < st1.pendingConfirmations.length then
      [LogEvent.highPendingCount st1.pendingConfirmations.length]
    else []
  let due := dueEntries now st1.pendingConfirmations
  let to_retry :=
    (due.filter fun p => p.2.attempts < 3).map fun p => (p.1, p.2.packetData)
  let to_abandon := (due.filter fun p => ¬p.2.attempts < 3).map Prod.fst
  let ra := processAbandons st1 cf to_abandon
  let cf1 := if to_abandon.length = 0 then 0 else ra.2.1
  let rr := processRetries now ra.1 to_retry
  (rr.1, cf1, rr.2.1, logs0 ++ logs1 ++ ra.2.2 ++ rr.2.2)

/-- Runs the retry loop at the given sequence of wake-up times,
accumulating transport writes and logs. -/
def runRetryTicks : ProtoState → Nat → List Int →
    ProtoState × Nat × List (List Nat) × List LogEvent
  | st, cf, [] => (st, cf, [], [])
  | st, cf, t :: ts =>
    match retryTick t st cf with
    | (st1, cf1, writes1, logs1) =>
      match runRetryTicks st1 cf1 ts with
      | (st2, cf2, writes2, logs2) =>
        (st2, cf2, writes1 ++ writes2, logs1 ++ logs2)

/-! ## Incoming packet dispatch (`handle_cbus_packet`) -/

/-- The event-handler calls that `handle_cbus_packet` makes for one
decoded packet. -/
inductive CallbackEvent
  | onPciCannotAcceptData
  | onConfirmation (code : Nat) (success : Bool)
  | onLightingGroupRamp (source : Option Nat) (group app duration level : Nat)
  | onLightingGroupOn (source : Option Nat) (group app : Nat)
  | onLightingGroupOff (source : Option Nat) (group app : Nat)
  | onLightingGroupTerminateRamp (source : Option Nat) (group app : Nat)
  | onClockRequest (source : Option Nat)
  | onClockUpdate (source : Option Nat) (val : Nat)
  | onLevelReport (application block_start : Nat) (levels : List (Option Nat))
deriving DecidableEq

/-- The dispatch of one SAL in a Point-to-Multipoint packet. -/
def dispatchSAL (source : Option Nat) : SAL → List CallbackEvent
  | .lightingRamp g a d l => [.onLightingGroupRamp source g a d l]
  | .lightingOn g a => [.onLightingGroupOn source g a]
  | .lightingOff g a => [.onLightingGroupOff source g a]
  | .lightingTerminateRamp g a => [.onLightingGroupTerminateRamp source g a]
  | .clockRequest => [.onClockRequest source]
  | .clockUpdate v => [.onClockUpdate source v]
  | .statusRequest _ _ _ => []          -- unhandled SAL type, debug log only

/-- The dispatch of one CAL in a Point-to-Point packet: a Level status
report reaches `on_level_report`; a Binary status report falls into a bare
`pass` and produces no event, as does every other CAL. -/
def dispatchCAL : CAL → List CallbackEvent
  | .extended _ _ (.binary _) => []     -- `pass` in the source
  | .extended a s (.level levels) => [.onLevelReport a s levels]
  | .identify _ => []

/-- `handle_cbus_packet(p)`: routes each decoded packet to its event
handlers. -/
def handle_cbus_packet : Packet → List CallbackEvent
  | .pciError => [.onPciCannotAcceptData]
  | .confirmation code success => [.onConfirmation code success]
  | .pointToMultipoint source sals => sals.flatMap (dispatchSAL source)
  | .pointToPoint _ cals => cals.flatMap dispatchCAL
  | _ => []                             -- unhandled, debug log only

/-- The clock action scheduled by a clock-request handler. -/
inductive ClockAction
  | scheduleClockBroadcast
deriving DecidableEq

/-- `CBusHandler.on_clock_request` (cbus/daemon/cmqttd.py and
cbus/daemon/mqtt_gateway.py): schedules a `clock_datetime()` broadcast
task whenever the handler is not closing.  The `handle_clock_requests`
flag (set from `--no-clock`) is taken by the constructor but never
consulted by this override. -/
def CBusHandler.on_clock_request (is_closing _handle_clock_requests : Bool) :
    List ClockAction :=
  if ¬is_closing then [.scheduleClockBroadcast] else []

/-! ## The MQTT gateway (`cbus/daemon/mqtt_gateway.py`)

JSON values are modelled structurally (a parsed `json.loads` result);
`json.dumps` is left abstract by publishing the structured object. -/

/-- A parsed JSON value. -/
inductive JVal
  | jstr (s : String)
  | jint (n : Int)
  | jbool (b : Bool)
  | jnull
  | jarr (xs : List JVal)
  | jobj (fields : List (String × JVal))

/-- A parsed JSON object (the result of `json.loads` on a command
payload). -/
abbrev JObj := List (String × JVal)

/-- Python `d[k]` / `d.get(k)` on a JSON object. -/
def jGet (o : JObj) (k : String) : Option JVal :=
  match o with
  | [] => none
  | (k', v) :: t => if k' = k then some v else jGet t k

/-- Python `d.get(k, default)` on a JSON object. -/
def jGetD (o : JObj) (k : String) (dflt : JVal) : JVal :=
  (jGet o k).getD dflt

/-- The Python exceptions the command path can raise. -/
inductive PyError
  | keyError
  | valueError
  | attributeError
  | typeError
deriving DecidableEq

/-- Python `int(x)` on a JSON value: numbers pass through, booleans become
0/1, strings are parsed (`ValueError` on a non-numeric string), anything
else is a `TypeError`. -/
def pyIntOfJ : JVal → Except PyError Int
  | .jint n => .ok n
  | .jbool b => .ok (if b then 1 else 0)
  | .jstr s =>
    match pyInt s with
    | some n => .ok (n : Int)
    | none => .error .valueError
  | _ => .error .typeError

/-- The externally visible actions of the gateway: MQTT publishes and
subscriptions, and the C-Bus commands sent through the PCI session. -/
inductive Effect
  | publishJson (topic : String) (payload : JObj) (qos : Nat) (retain : Bool)
  | publishStr (topic : String) (payload : String) (qos : Nat) (retain : Bool)
  | subscribeTopic (topic : String) (qos : Nat)
  | cbusLightingOn (group app : Nat)
  | cbusLightingOff (group app : Nat)
  | cbusLightingRamp (group app : Nat) (duration level : Int)

/-- `groupDB`: per application, the groups already announced on MQTT. -/
abbrev GroupDB := List (Nat × List (Nat × Bool))

/-- `self.groupDB.setdefault(app_addr, dict()).get(group_addr, False)`. -/
def dbGet (db : GroupDB) (group_addr app_addr : Nat) : Bool :=
  match dictGet db app_addr with
  | some m => (dictGet m group_addr).getD false
  | none => false

/-- `self.groupDB.setdefault(app_addr, dict())[group_addr] = True`. -/
def dbSetTrue (db : GroupDB) (group_addr app_addr : Nat) : GroupDB :=
  match dictGet db app_addr with
  | some m => dictSet db app_addr (dictSet m group_addr true)
  | none => dictSet db app_addr [(group_addr, true)]

/-- The label map passed to `publish_light`:
application → (application name, group → label). -/
abbrev LabelMap := List (Nat × (String × List (Nat × String)))

/-- `default_light_name(group_addr, app_addr)`. -/
def default_light_name (group_addr app_addr : Nat) : String :=
  "C-Bus Light " ++ ga_string group_addr app_addr true

/-- The display name `publish_light` selects: the label for the group under
the application in the label map when one is provided, the default light
name otherwise. -/
def lightName (group_addr app_addr : Nat) (app_labels : Option LabelMap) :
    String :=
  let default_name := default_light_name group_addr app_addr
  match app_labels with
  | some m =>
    match dictGet m app_addr with
    | some p => (dictGet p.2 group_addr).getD default_name
    | none => default_name
  | none => default_name

/-- The light discovery config object built by `publish_light` (the
`str()` of the group and application addresses rendered as decimal). -/
def lightConfigPayload (group_addr app_addr : Nat) (name : String) : JObj :=
  let uid := "cbus_light_" ++ ga_string group_addr app_addr false
  [("name", .jstr name),
   ("unique_id", .jstr uid),
   ("cmd_t", .jstr (set_topic group_addr app_addr)),
   ("stat_t", .jstr (state_topic group_addr app_addr)),
   ("schema", .jstr "json"),
   ("brightness", .jbool true),
   ("device", .jobj
     [("identifiers", .jarr [.jstr uid]),
      ("connections", .jarr
        [.jarr [.jstr "cbus_group_address", .jstr ⟨decimal group_addr⟩],
         .jarr [.jstr "cbus_application_address", .jstr ⟨decimal app_addr⟩]]),
      ("sw_version", .jstr "cmqttd https://github.com/mitchell-johnson/cbus"),
      ("name", .jstr (default_light_name group_addr app_addr)),
      ("manufacturer", .jstr "Clipsal"),
      ("model", .jstr "C-Bus Lighting Application"),
      ("via_device", .jstr "cmqttd")])]

/-- The binary-sensor discovery config object built by `publish_light`. -/
def sensorConfigPayload (group_addr app_addr : Nat) (name : String) : JObj :=
  let sensor_uid := "cbus_bin_sensor_" ++ ga_string group_addr app_addr false
  [("name", name ++ " (as binary sensor)" |> .jstr),
   ("unique_id", .jstr sensor_uid),
   ("stat_t", .jstr (bin_sensor_state_topic group_addr app_addr)),
   ("device", .jobj
     [("identifiers", .jarr [.jstr sensor_uid]),
      ("connections", .jarr
        [.jarr [.jstr "cbus_group_address", .jstr ⟨decimal group_addr⟩],
         .jarr [.jstr "cbus_application_address", .jstr ⟨decimal app_addr⟩]]),
      ("sw_version", .jstr "cmqttd https://github.com/mitchell-johnson/cbus"),
      ("name", .jstr (default_light_name group_addr app_addr)),
      ("manufacturer", .jstr "Clipsal"),
      ("model", .jstr "C-Bus Lighting Application"),
      ("via_device", .jstr "cmqttd")])]

/-- `publish_light(group_addr, app_addr, app_labels)`: subscribes to the
set topic at QoS 2, publishes the light and binary-sensor discovery
configs (retained, QoS 1), and marks the pair published in `groupDB`. -/
def publish_light (db : GroupDB) (group_addr app_addr : Nat)
    (app_labels : Option LabelMap) : GroupDB × List Effect :=
  let name := lightName group_addr app_addr app_labels
  (dbSetTrue db group_addr app_addr,
   [.subscribeTopic (set_topic group_addr app_addr) 2,
    .publishJson (conf_topic group_addr app_addr)
      (lightConfigPayload group_addr app_addr name) 1 true,
    .publishJson (bin_sensor_conf_topic group_addr app_addr)
      (sensorConfigPayload group_addr app_addr name) 1 true])

/-- `check_published(group_addr, app_addr)`: lazily publishes the
discovery configuration for a pair not yet marked in `groupDB`. -/
def check_published (db : GroupDB) (group_addr app_addr : Nat) :
    GroupDB × List Effect :=
  if ¬dbGet db group_addr app_addr then
    publish_light db group_addr app_addr none
  else (db, [])

/-- `publish_binary_sensor(group_addr, app_addr, state)`: the retained
`"ON"`/`"OFF"` string on the binary-sensor state topic at QoS 1. -/
def publish_binary_sensor (group_addr app_addr : Nat) (state : Bool) :
    Effect :=
  .publishStr (bin_sensor_state_topic group_addr app_addr)
    (if state then "ON" else "OFF") 1 true

/-- The retained state object `{state, brightness, transition,
cbus_source_addr}`. -/
def statePayload (state : String) (brightness transition : Int)
    (source : Option Int) : JObj :=
  [("state", .jstr state),
   ("brightness", .jint brightness),
   ("transition", .jint transition),
   ("cbus_source_addr",
     match source with
     | some n => .jint n
     | none => .jnull)]

/-- `lighting_group_on(source_addr, group_addr, app_addr)`: ensure the pair
is published, publish the retained ON state, publish the binary sensor. -/
def lighting_group_on (db : GroupDB) (source_addr : Option Int)
    (group_addr app_addr : Nat) : GroupDB × List Effect :=
  let r := check_published db group_addr app_addr
  (r.1,
   r.2 ++
     [.publishJson (state_topic group_addr app_addr)
        (statePayload "ON" 255 0 source_addr) 1 true,
      publish_binary_sensor group_addr app_addr true])

/-- `lighting_group_off(source_addr, group_addr, app_addr)`. -/
def lighting_group_off (db : GroupDB) (source_addr : Option Int)
    (group_addr app_addr : Nat) : GroupDB × List Effect :=
  let r := check_published db group_addr app_addr
  (r.1,
   r.2 ++
     [.publishJson (state_topic group_addr app_addr)
        (statePayload "OFF" 0 0 source_addr) 1 true,
      publish_binary_sensor group_addr app_addr false])

/-- `lighting_group_ramp(source_addr, group_addr, app_addr, duration,
level)`. -/
def lighting_group_ramp (db : GroupDB) (source_addr : Option Int)
    (group_addr app_addr : Nat) (duration level : Int) : GroupDB × List Effect :=
  let r := check_published db group_addr app_addr
  (r.1,
   r.2 ++
     [.publishJson (state_topic group_addr app_addr)
        (statePayload "ON" level duration source_addr) 1 true,
      publish_binary_sensor group_addr app_addr (0 < level)])

/-- `switchLight(userdata, group_addr, app_addr, light_on, brightness,
transition)`: pushes the command to C-Bus and republishes on MQTT.  ON at
full brightness with no transition maps to `lighting_group_on`; any other
ON maps to `lighting_group_ramp(transition, brightness)`; OFF maps to
`lighting_group_off`. -/
def switchLight (db : GroupDB) (group_addr app_addr : Nat)
    (light_on : Bool) (brightness transition : Int) : GroupDB × List Effect :=
  if light_on then
    if brightness = 255 ∧ transition = 0 then
      let r := lighting_group_on db none group_addr app_addr
      (r.1, .cbusLightingOn group_addr app_addr :: r.2)
    else
      let r := lighting_group_ramp db none group_addr app_addr
        transition brightness
      (r.1, .cbusLightingRamp group_addr app_addr transition brightness :: r.2)
  else
    let r := lighting_group_off db none group_addr app_addr
    (r.1, .cbusLightingOff group_addr app_addr :: r.2)

/-- An incoming MQTT message: its topic and its payload as parsed by
`json.loads` (`none` models a `JSONDecodeError`). -/
structure MqttMsg where
  topic : String
  payload : Option JObj

/-- The result of `_handle_message` when no exception escapes: either the
message was ignored (returned `False` after an error log) or a
`switchLight` call was enqueued on the throttler (returned `True`). -/
inductive HandlerOutcome
  | ignored
  | enqueued (group_addr app_addr : Nat) (light_on : Bool)
      (brightness transition : Int)

/-- `_handle_message(msg)`: filters for `homeassistant/light/cbus_*/set`
topics, parses the group address (a `ValueError` is caught and logged at
error), requires parsed JSON (a `JSONDecodeError` is caught and logged at
error), then reads `payload["state"]` (an uncaught `KeyError` when
absent), uppercases it (an uncaught `AttributeError` on a non-string),
clamps `brightness` into 0..255 with default 255 and `transition` to ≥ 0
with default 0 (uncaught `ValueError`/`TypeError` when `int()` fails), and
enqueues `switchLight`. -/
def _handle_message (msg : MqttMsg) : Except PyError HandlerOutcome :=
  if ¬(listStartsWith LIGHT_TOPIC_HEAD.data msg.topic.data ∧
       listEndsWith "/set".data msg.topic.data) then
    .ok .ignored
  else
    match get_topic_group_address msg.topic with
    | none => .ok .ignored
    | some (group_addr, app_addr) =>
      match msg.payload with
      | none => .ok .ignored
      | some payload =>
        match jGet payload "state" with
        | none => .error .keyError
        | some stateVal =>
          match stateVal with
          | .jstr s =>
            let light_on := pyUpper s = "ON"
            match pyIntOfJ (jGetD payload "brightness" (.jint 255)) with
            | .error e => .error e
            | .ok b =>
              let brightness := max 0 (min 255 b)
              match pyIntOfJ (jGetD payload "transition" (.jint 0)) with
              | .error e => .error e
              | .ok t =>
                let transition := max 0 t
                .ok (.enqueued group_addr app_addr light_on brightness
                  transition)
          | _ => .error .attributeError

/-- `_dispatcher_loop`: handles subscribed messages in arrival order; an
exception escaping `_handle_message` is caught by the loop-level handler,
which logs "Dispatcher loop crashed" and ends the loop, so every later
message goes unprocessed. -/
def _dispatcher_loop : List MqttMsg → List (MqttMsg × HandlerOutcome)
  | [] => []
  | m :: ms =>
    match _handle_message m with
    | .ok outcome => (m, outcome) :: _dispatcher_loop ms
    | .error _ => []

/-! ## Relay of C-Bus lighting events into MQTT (claim C10) -/

/-- A lighting event relayed from C-Bus into the MQTT client
(`CBusHandler.on_lighting_group_on/off/ramp → MqttClient.lighting_group_*`). -/
inductive GEvent
  | evOn (source : Option Int) (group app : Nat)
  | evOff (source : Option Int) (group app : Nat)
  | evRamp (source : Option Int) (group app : Nat) (duration level : Int)

/-- The `(group, app)` pair an event concerns. -/
def GEvent.pair : GEvent → Nat × Nat
  | .evOn _ g a => (g, a)
  | .evOff _ g a => (g, a)
  | .evRamp _ g a _ _ => (g, a)

/-- Applies one relayed event to the client state. -/
def applyGEvent (db : GroupDB) : GEvent → GroupDB × List Effect
  | .evOn s g a => lighting_group_on db s g a
  | .evOff s g a => lighting_group_off db s g a
  | .evRamp s g a d l => lighting_group_ramp db s g a d l

/-- Runs a sequence of relayed events, concatenating the effect trace. -/
def runGEvents : GroupDB → List GEvent → GroupDB × List Effect
  | db, [] => (db, [])
  | db, e :: es =>
    match applyGEvent db e with
    | (db1, tr1) =>
      match runGEvents db1 es with
      | (db2, tr2) => (db2, tr1 ++ tr2)

/-- Whether an effect is the retained state publish of the pair. -/
def isStatePub (group app : Nat) : Effect → Bool
  | .publishJson t _ _ _ => t = state_topic group app
  | _ => false

/-- Whether an effect is the light discovery config publish of the pair. -/
def isConfPub (group app : Nat) : Effect → Bool
  | .publishJson t _ _ _ => t = conf_topic group app
  | _ => false

/-- Whether an effect is the binary-sensor discovery config publish of the
pair. -/
def isBinConfPub (group app : Nat) : Effect → Bool
  | .publishJson t _ _ _ => t = bin_sensor_conf_topic group app
  | _ => false

/-- Whether an effect is the set-topic subscription of the pair. -/
def isSetSub (group app : Nat) : Effect → Bool
  | .subscribeTopic t _ => t = set_topic group app
  | _ => false

/-- Whether a send record carried a Device Management packet. -/
def SendRec.isDeviceManagement (r : SendRec) : Bool :=
  match r.packet with
  | .deviceManagement _ _ => true
  | _ => false

/-- A registry state in which every one of the 20 confirmation codes is in
use, all acquired at time `ts`, with an empty pending table and the cursor
at 0. -/
def fullPoolState (ts : Int) : ProtoState :=
  ⟨CONFIRMATION_CODES.map fun c => (c, ts), [], 0⟩

/-- In every prefix of an effect trace that contains the retained state
publish of a pair, that pair's discovery effects — light config publish,
binary-sensor config publish and set-topic subscription — are already
present. -/
def discoveryPrecedesState (tr : List Effect) (group app : Nat) : Prop :=
  ∀ n, (tr.take n).any (isStatePub group app) = true →
    ((tr.take n).any (isConfPub group app) = true ∧
     (tr.take n).any (isBinConfPub group app) = true ∧
     (tr.take n).any (isSetSub group app) = true)

/-- Every pair marked published in the groupDB has its discovery effects in
the trace. -/
def dbCoveredBy (db : GroupDB) (tr : List Effect) : Prop :=
  ∀ group app, dbGet db group app = true →
    (tr.any (isConfPub group app) = true ∧
     tr.any (isBinConfPub group app) = true ∧
     tr.any (isSetSub group app) = true)

/-!
# Theorems

Helper lemmas about the string machinery come first, then one theorem
(plus witness or counterexample) per claim.
-/

theorem string_append_data (s t : String) : (s ++ t).data = s.data ++ t.data :=
  rfl

theorem listStartsWith_append (p s : List Char) :
    listStartsWith p (p ++ s) = true := by
  induction p with
  | nil => rfl
  | cons c cs ih => simp [listStartsWith, ih]

theorem listEndsWith_append (s t : List Char) :
    listEndsWith s (t ++ s) = true := by
  unfold listEndsWith
  rw [List.reverse_append]
  exact listStartsWith_append _ _

theorem listDropN_append (p s : List Char) :
    listDropN p.length (p ++ s) = s := by
  simp [listDropN]

theorem takeUntil_append_sep (sep : Char) (xs ys : List Char)
    (h : ∀ c ∈ xs, c ≠ sep) : takeUntil sep (xs ++ sep :: ys) = xs := by
  induction xs with
  | nil => simp [takeUntil]
  | cons c cs ih =>
    have hc : c ≠ sep := h c (by simp)
    simp only [List.cons_append, takeUntil, if_neg hc]
    exact congrArg (c :: ·) (ih fun d hd => h d (by simp [hd]))

theorem pySplit_ne_nil (sep : Char) (xs : List Char) : pySplit sep xs ≠ [] := by
  cases xs with
  | nil => simp [pySplit]
  | cons c cs =>
    simp only [pySplit]
    rcases pySplit sep cs with _ | ⟨h1, t⟩
    · simp
    · by_cases hc : c = sep <;> simp [hc]

theorem pySplit_no_sep (sep : Char) (xs : List Char)
    (h : ∀ c ∈ xs, c ≠ sep) : pySplit sep xs = [xs] := by
  induction xs with
  | nil => rfl
  | cons c cs ih =>
    have hc : c ≠ sep := h c (by simp)
    rw [pySplit, ih fun d hd => h d (by simp [hd])]
    simp [hc]

theorem pySplit_append_sep (sep : Char) (xs ys : List Char)
    (h : ∀ c ∈ xs, c ≠ sep) :
    pySplit sep (xs ++ sep :: ys) = xs :: pySplit sep ys := by
  induction xs with
  | nil =>
    rcases hys : pySplit sep ys with _ | ⟨h1, t⟩
    · exact absurd hys (pySplit_ne_nil sep ys)
    · simp [pySplit, hys]
  | cons c cs ih =>
    have hc : c ≠ sep := h c (by simp)
    rw [List.cons_append, pySplit, ih fun d hd => h d (by simp [hd])]
    simp [hc]

set_option maxRecDepth 40000 in
theorem decimal_int_roundtrip : ∀ n, n < 256 → pyIntList (decimal n) = some n := by
  decide

set_option maxRecDepth 40000 in
theorem decimal_no_sep :
    ∀ n, n < 256 → ∀ c ∈ decimal n, c ≠ '/' ∧ c ≠ '_' := by
  decide

set_option maxRecDepth 40000 in
theorem decimal3_int_roundtrip :
    ∀ n, n < 256 → pyIntList (decimal3 n) = some n := by
  decide

set_option maxRecDepth 40000 in
theorem decimal3_no_sep :
    ∀ n, n < 256 → ∀ c ∈ decimal3 n, c ≠ '/' ∧ c ≠ '_' := by
  decide

theorem ga_string_data_lighting (g : Nat) :
    (ga_string g Application.LIGHTING false).data = decimal g := by
  simp [ga_string]

theorem ga_string_data_other (g a : Nat) (h : a ≠ Application.LIGHTING) :
    (ga_string g a false).data = decimal3 a ++ '_' :: decimal3 g := by
  simp [ga_string, h]

theorem set_topic_data (g a : Nat) :
    (set_topic g a).data =
      LIGHT_TOPIC_HEAD.data ++
        ((ga_string g a false).data ++ '/' :: ['s', 'e', 't']) := by
  show (LIGHT_TOPIC_HEAD ++ ga_string g a false ++ "/set").data = _
  rw [string_append_data, string_append_data, List.append_assoc]

theorem check_ga_true (g : Nat) (h1 : 1 ≤ g) (h2 : g ≤ 255) :
    check_ga g = true := by
  unfold check_ga
  rw [Bool.and_eq_true, decide_eq_true_eq, decide_eq_true_eq]
  exact ⟨h1, h2⟩

theorem get_set_topic_roundtrip (g a : Nat) (h1 : 1 ≤ g) (h2 : g ≤ 255)
    (ha : a ≤ 255) :
    get_topic_group_address (set_topic g a) = some (g, a) := by
  have hg256 : g < 256 := by omega
  have ha256 : a < 256 := by omega
  have hcheck : check_ga g = true := check_ga_true g h1 h2
  by_cases hL : a = Application.LIGHTING
  · subst hL
    have hd := set_topic_data g Application.LIGHTING
    rw [ga_string_data_lighting] at hd
    have hslash : ∀ c ∈ decimal g, c ≠ '/' :=
      fun c hc => (decimal_no_sep g hg256 c hc).1
    have hus : ∀ c ∈ decimal g, c ≠ '_' :=
      fun c hc => (decimal_no_sep g hg256 c hc).2
    unfold get_topic_group_address
    rw [hd, listStartsWith_append, if_pos rfl, listDropN_append,
      takeUntil_append_sep '/' (decimal g) _ hslash,
      pySplit_no_sep '_' (decimal g) hus]
    simp only [decimal_int_roundtrip g hg256, hcheck, if_true]
  · have hd := set_topic_data g a
    rw [ga_string_data_other g a hL] at hd
    have hslash : ∀ c ∈ decimal3 a ++ '_' :: decimal3 g, c ≠ '/' := by
      intro c hc
      rcases List.mem_append.1 hc with hc1 | hc2
      · exact (decimal3_no_sep a ha256 c hc1).1
      · rcases List.mem_cons.1 hc2 with hc3 | hc4
        · subst hc3; decide
        · exact (decimal3_no_sep g hg256 c hc4).1
    have hus : ∀ c ∈ decimal3 a, c ≠ '_' :=
      fun c hc => (decimal3_no_sep a ha256 c hc).2
    have hus2 : ∀ c ∈ decimal3 g, c ≠ '_' :=
      fun c hc => (decimal3_no_sep g hg256 c hc).2
    unfold get_topic_group_address
    rw [List.append_assoc] at hd
    rw [hd, listStartsWith_append, if_pos rfl, listDropN_append,
      ← List.append_assoc,
      takeUntil_append_sep '/' (decimal3 a ++ '_' :: decimal3 g) _ hslash,
      pySplit_append_sep '_' (decimal3 a) (decimal3 g) hus,
      pySplit_no_sep '_' (decimal3 g) hus2]
    simp only [decimal3_int_roundtrip a ha256, decimal3_int_roundtrip g hg256,
      hcheck, if_true]

theorem recognised_le_255 : ∀ a ∈ recognisedApplications, a ≤ 255 := by
  decide

/-- C2: building the command topic for a valid pair and running the reverse
parser is the identity: for every group address `1 ≤ g ≤ 255` and every
recognised application address `a`,
`get_topic_group_address (set_topic g a) = (g, a)` — where `ga_string`
renders the Lighting application as the bare group number and any other
application as the zero-padded `app_group` form. -/
theorem claimC2_topic_roundtrip (g a : Nat) (h1 : 1 ≤ g) (h2 : g ≤ 255)
    (ha : a ∈ recognisedApplications) :
    get_topic_group_address (set_topic g a) = some (g, a) :=
  get_set_topic_roundtrip g a h1 h2 (recognised_le_255 a ha)

set_option maxRecDepth 4000 in
theorem claimC2_topic_roundtrip_witness :
    get_topic_group_address (set_topic 1 56) = some (1, 56) ∧
      get_topic_group_address (set_topic 255 202) = some (255, 202) :=
  ⟨claimC2_topic_roundtrip 1 56 (by decide) (by decide) (by decide),
   claimC2_topic_roundtrip 255 202 (by decide) (by decide) (by decide)⟩

/-- C4 counterexample: with all 20 confirmation codes in use with fresh
timestamps (zero age, far under the 3 s backstop), `_get_confirmation_code`
returns a code (104) immediately — it never polls at 100 ms and never waits
for the 3 s backstop before handing out a code. -/
theorem claimC4_counterexample :
    (fullPoolState 100).confirmationCodesInUse.length = 20 ∧
      (∀ p ∈ (fullPoolState 100).confirmationCodesInUse, 100 - p.2 < 3) ∧
      (_get_confirmation_code 100 (fullPoolState 100)).1 = 104 := by
  decide

/-- C4 amended: acquisition never waits.  When all 20 codes are found in
use, the reap performed at the start of `_get_confirmation_code` detects
more than 90% usage and force-releases the oldest quarter (5 codes), and
the acquire then immediately allocates and returns the first freed code —
there is no 100 ms polling loop and no 3 s backstop. -/
theorem claimC4_amended :
    _check_and_release_timed_out_codes 100 (fullPoolState 100) =
      (⟨[(109, 100), (110, 100), (111, 100), (112, 100), (113, 100),
         (114, 100), (115, 100), (116, 100), (117, 100), (118, 100),
         (119, 100), (120, 100), (121, 100), (122, 100), (103, 100)], [], 0⟩,
       [.tooManyCodesInUse 20, .forceReleasedCode 104, .forceReleasedCode 105,
        .forceReleasedCode 106, .forceReleasedCode 107,
        .forceReleasedCode 108]) ∧
      _get_confirmation_code 100 (fullPoolState 100) =
        (104,
         ⟨[(109, 100), (110, 100), (111, 100), (112, 100), (113, 100),
           (114, 100), (115, 100), (116, 100), (117, 100), (118, 100),
           (119, 100), (120, 100), (121, 100), (122, 100), (103, 100),
           (104, 100)], [], 1⟩,
         [.tooManyCodesInUse 20, .forceReleasedCode 104,
          .forceReleasedCode 105, .forceReleasedCode 106,
          .forceReleasedCode 107, .forceReleasedCode 108,
          .allocatedCode 104]) := by
  decide

/-- C5 counterexample: the connection-establishment sequence contains
exactly four Device Management packets, not five — the "fifth
device-management packet" of the claim does not exist. -/
theorem claimC5_counterexample :
    ((pci_reset 0 initialProtoState).2.filter
        (fun r => r.isDeviceManagement)).length = 4 := by
  decide

/-- C5 amended: on connection establishment `pci_reset` sends exactly, in
order, three Reset packets and then DeviceManagement(0x21, 0xFF),
DeviceManagement(0x22, 0xFF), DeviceManagement(0x42, 0x0E),
DeviceManagement(0x30, 0x79) — seven frames in all, each transmitted in
basic mode (no leading backslash) with no confirmation code appended and a
CR terminator, leaving the session state untouched; the sequence completes
(and normal traffic resumes) after the fourth device-management packet. -/
theorem claimC5_amended (now : Int) (st : ProtoState) :
    pci_reset now st =
      (st,
       [⟨.reset, [126, 13], none⟩,
        ⟨.reset, [126, 13], none⟩,
        ⟨.reset, [126, 13], none⟩,
        ⟨.deviceManagement 0x21 0xFF, [65, 51, 50, 49, 48, 48, 70, 70, 13], none⟩,
        ⟨.deviceManagement 0x22 0xFF, [65, 51, 50, 50, 48, 48, 70, 70, 13], none⟩,
        ⟨.deviceManagement 0x42 0x0E, [65, 51, 52, 50, 48, 48, 48, 69, 13], none⟩,
        ⟨.deviceManagement 0x30 0x79, [65, 51, 51, 48, 48, 48, 55, 57, 13], none⟩]) :=
  rfl

/-- C6 counterexample: for the labelled Lighting pair (group 1), the light
discovery config is published with `unique_id` equal to the unpadded
`cbus_light_1` and the binary-sensor config with `cbus_bin_sensor_1` — not
the zero-padded `cbus_light_001` / `cbus_bin_sensor_001` the claim
states. -/
theorem claimC6_counterexample :
    jGet (lightConfigPayload 1 56 (default_light_name 1 56)) "unique_id" =
        some (.jstr "cbus_light_1") ∧
      jGet (sensorConfigPayload 1 56 (default_light_name 1 56)) "unique_id" =
        some (.jstr "cbus_bin_sensor_1") ∧
      ("cbus_light_1" : String) ≠ "cbus_light_001" ∧
      ("cbus_bin_sensor_1" : String) ≠ "cbus_bin_sensor_001" :=
  ⟨rfl, rfl, by decide, by decide⟩

/-- C6 amended: for every labelled (application, group) pair, the retained
light discovery config is published with
`unique_id = cbus_light_<gastr>` and the binary-sensor config with
`unique_id = cbus_bin_sensor_<gastr>`, where `<gastr>` is the same
unpadded `ga_string(…, zeros=False)` form the topics use; in particular,
for Lighting group 1 the unique_ids are exactly `cbus_light_1` and
`cbus_bin_sensor_1` while the topics use `cbus_1`. -/
theorem claimC6_amended :
    (∀ g a name, jGet (lightConfigPayload g a name) "unique_id" =
        some (.jstr ("cbus_light_" ++ ga_string g a false))) ∧
      (∀ g a name, jGet (sensorConfigPayload g a name) "unique_id" =
        some (.jstr ("cbus_bin_sensor_" ++ ga_string g a false))) ∧
      jGet (lightConfigPayload 1 56 (default_light_name 1 56)) "unique_id" =
        some (.jstr "cbus_light_1") ∧
      jGet (sensorConfigPayload 1 56 (default_light_name 1 56)) "unique_id" =
        some (.jstr "cbus_bin_sensor_1") ∧
      conf_topic 1 56 = "homeassistant/light/cbus_1/config" ∧
      bin_sensor_conf_topic 1 56 =
        "homeassistant/binary_sensor/cbus_1/config" :=
  ⟨fun _ _ _ => rfl, fun _ _ _ => rfl, rfl, rfl, by decide, by decide⟩

/-- C7 counterexample: a decoded Point-to-Point packet carrying an Extended
CAL with a Binary status report is dropped by `handle_cbus_packet` — no
callback at all is dispatched for it, contrary to the claim that binary
reports reach a binary-report callback. -/
theorem claimC7_counterexample :
    handle_cbus_packet
        (.pointToPoint 5 [.extended 56 0 (.binary [255, 0, 255])]) = [] :=
  rfl

/-- C7 amended: for every decoded Point-to-Point packet carrying an
Extended CAL, a Level status report produces the level-report callback,
but a Binary status report is silently dropped (a bare `pass` in the
dispatcher): no callback is dispatched for binary reports. -/
theorem claimC7_amended (unit app start : Nat) (levels : List (Option Nat))
    (states : List Nat) :
    handle_cbus_packet
        (.pointToPoint unit [.extended app start (.level levels)]) =
        [.onLevelReport app start levels] ∧
      handle_cbus_packet
        (.pointToPoint unit [.extended app start (.binary states)]) = [] :=
  ⟨rfl, rfl⟩

/-- C8: evaluation of the code at the failing input.  An incoming Clock
Request SAL is dispatched to `on_clock_request`, and the daemon's
`CBusHandler.on_clock_request` override schedules a clock broadcast even
when clock-request handling is disabled (`handle_clock_requests = false`,
i.e. `--no-clock`): the override never consults the flag. -/
theorem claimC8_no_clock_ignored :
    (∀ source, handle_cbus_packet (.pointToMultipoint source [.clockRequest]) =
        [.onClockRequest source]) ∧
      CBusHandler.on_clock_request false false = [.scheduleClockBroadcast] ∧
      CBusHandler.on_clock_request false true = [.scheduleClockBroadcast] :=
  ⟨fun _ => rfl, rfl, rfl⟩

/-- C1: for a packet sent with confirmation requested (from a fresh
session, so code 104 — `h` — is allocated) that never receives a matching
confirmation, the 1 s retry loop rewrites exactly the prepared bytes at
the ticks where the entry's last-attempt age is ≥ 1 s and its attempt
count is below 3 (attempts 2 and 3, at ticks 1 s and 2 s; nothing at tick
0 s), and once the attempt count has reached 3 it abandons the entry at
the next due tick: the entry is removed from the pending table, the code
is released, and of the retry-loop logs exactly one is a warning (the
"giving up" record).  Together with the initial write, the transport sees
exactly three writes of those bytes, and the later ticks (4 s, 5 s)
produce no further write for that code. -/
theorem claimC1_retry_and_abandon (cmd : Packet)
    (hns : isSpecialClientPacket cmd = false) :
    _send cmd true false 0 initialProtoState =
      (⟨cmd, 92 :: (encodePacket cmd ++ [104] ++ [13]), some 104⟩,
       ⟨[(104, 0)], [(104, ⟨92 :: (encodePacket cmd ++ [104] ++ [13]), 1, 0⟩)], 1⟩,
       [.allocatedCode 104]) ∧
    runRetryTicks
        ⟨[(104, 0)], [(104, ⟨92 :: (encodePacket cmd ++ [104] ++ [13]), 1, 0⟩)], 1⟩
        0 [0, 1, 2, 3, 4, 5] =
      (⟨[], [], 1⟩, 0,
       [92 :: (encodePacket cmd ++ [104] ++ [13]),
        92 :: (encodePacket cmd ++ [104] ++ [13])],
       [.resendingPacket 104 2, .resendingPacket 104 3,
        .giveUpOnCode 104, .releasedCode 104]) ∧
    ([LogEvent.resendingPacket 104 2, .resendingPacket 104 3,
      .giveUpOnCode 104, .releasedCode 104].filter LogEvent.isWarning) =
      [.giveUpOnCode 104] := by
  refine ⟨?_, ?_, rfl⟩
  · unfold _send _prepare_packet
    rw [hns]
    rfl
  · have e0 : retryTick 0
        ⟨[(104, 0)], [(104, ⟨92 :: (encodePacket cmd ++ [104] ++ [13]), 1, 0⟩)], 1⟩ 0 =
        (⟨[(104, 0)], [(104, ⟨92 :: (encodePacket cmd ++ [104] ++ [13]), 1, 0⟩)], 1⟩,
         0, [], []) := rfl
    have e1 : retryTick 1
        ⟨[(104, 0)], [(104, ⟨92 :: (encodePacket cmd ++ [104] ++ [13]), 1, 0⟩)], 1⟩ 0 =
        (⟨[(104, 0)], [(104, ⟨92 :: (encodePacket cmd ++ [104] ++ [13]), 2, 1⟩)], 1⟩,
         0, [92 :: (encodePacket cmd ++ [104] ++ [13])],
         [.resendingPacket 104 2]) := rfl
    have e2 : retryTick 2
        ⟨[(104, 0)], [(104, ⟨92 :: (encodePacket cmd ++ [104] ++ [13]), 2, 1⟩)], 1⟩ 0 =
        (⟨[(104, 0)], [(104, ⟨92 :: (encodePacket cmd ++ [104] ++ [13]), 3, 2⟩)], 1⟩,
         0, [92 :: (encodePacket cmd ++ [104] ++ [13])],
         [.resendingPacket 104 3]) := rfl
    have e3 : retryTick 3
        ⟨[(104, 0)], [(104, ⟨92 :: (encodePacket cmd ++ [104] ++ [13]), 3, 2⟩)], 1⟩ 0 =
        (⟨[], [], 1⟩, 1, [], [.giveUpOnCode 104, .releasedCode 104]) := rfl
    have e4 : retryTick 4 (⟨[], [], 1⟩ : ProtoState) 1 =
        (⟨[], [], 1⟩, 0, [], []) := rfl
    have e5 : retryTick 5 (⟨[], [], 1⟩ : ProtoState) 0 =
        (⟨[], [], 1⟩, 0, [], []) := rfl
    simp only [runRetryTicks, e0, e1, e2, e3, e4, e5, List.nil_append,
      List.append_nil, List.singleton_append, List.cons_append]

theorem claimC1_retry_and_abandon_witness :
    isSpecialClientPacket (.pointToMultipoint none [.lightingOn 3 56]) = false ∧
      (runRetryTicks
          ⟨[(104, 0)],
           [(104, ⟨92 :: (encodePacket (.pointToMultipoint none [.lightingOn 3 56]) ++
              [104] ++ [13]), 1, 0⟩)], 1⟩
          0 [0, 1, 2, 3, 4, 5]).2.2.1 =
        [92 :: (encodePacket (.pointToMultipoint none [.lightingOn 3 56]) ++
           [104] ++ [13]),
         92 :: (encodePacket (.pointToMultipoint none [.lightingOn 3 56]) ++
           [104] ++ [13])] :=
  ⟨rfl, by rw [(claimC1_retry_and_abandon
    (.pointToMultipoint none [.lightingOn 3 56]) rfl).2.1]⟩

theorem set_topic_startsWith (g a : Nat) :
    listStartsWith LIGHT_TOPIC_HEAD.data (set_topic g a).data = true := by
  rw [set_topic_data]
  exact listStartsWith_append _ _

theorem set_topic_endsWith (g a : Nat) :
    listEndsWith ['/', 's', 'e', 't'] (set_topic g a).data = true := by
  rw [set_topic_data, ← List.append_assoc]
  exact listEndsWith_append _ _

/-- C3: a message on the set topic of a valid pair whose payload is valid
JSON with a `state` field is parsed with `brightness` defaulting to 255
and clamped into 0..255 and `transition` defaulting to 0 and clamped
non-negative, and a `switchLight` call is enqueued; `switchLight` with
state ON, brightness 255 and transition 0 issues the C-Bus LightingOn
command and then publishes the retained state
`state=ON, brightness=255, transition=0, cbus_source_addr=null` plus the
binary-sensor string "ON"; any other ON issues
LightingRamp(group, app, transition, brightness); OFF issues
LightingOff(group, app). -/
theorem claimC3_command_handling (g a : Nat) (h1 : 1 ≤ g) (h2 : g ≤ 255)
    (ha : a ≤ 255) (o : JObj) (s : String)
    (hs : jGet o "state" = some (.jstr s)) (b t : Int)
    (hb : pyIntOfJ (jGetD o "brightness" (.jint 255)) = .ok b)
    (ht : pyIntOfJ (jGetD o "transition" (.jint 0)) = .ok t)
    (db : GroupDB) :
    _handle_message ⟨set_topic g a, some o⟩ =
        .ok (.enqueued g a (decide (pyUpper s = "ON"))
          (max 0 (min 255 b)) (max 0 t)) ∧
      switchLight db g a true 255 0 =
        ((check_published db g a).1,
         .cbusLightingOn g a ::
           (check_published db g a).2 ++
             [.publishJson (state_topic g a) (statePayload "ON" 255 0 none) 1 true,
              .publishStr (bin_sensor_state_topic g a) "ON" 1 true]) ∧
      (∀ b2 t2 : Int, ¬(b2 = 255 ∧ t2 = 0) →
        (switchLight db g a true b2 t2).2.head? =
          some (.cbusLightingRamp g a t2 b2)) ∧
      (switchLight db g a false (max 0 (min 255 b)) (max 0 t)).2.head? =
        some (.cbusLightingOff g a) := by
  refine ⟨?_, rfl, ?_, rfl⟩
  · simp only [_handle_message, set_topic_startsWith, set_topic_endsWith,
      get_set_topic_roundtrip g a h1 h2 ha, hs, hb, ht, not_true, and_self,
      true_and, and_true, if_false, ite_false, not_false_iff, not_true_eq_false]
  · intro b2 t2 hne
    unfold switchLight
    rw [if_pos rfl, if_neg hne]
    rfl

theorem claimC3_command_handling_witness :
    _handle_message ⟨set_topic 1 56, some [("state", .jstr "ON")]⟩ =
      .ok (.enqueued 1 56 true 255 0) := by
  rw [(claimC3_command_handling 1 56 (by decide) (by decide) (by decide)
      [("state", .jstr "ON")] "ON" rfl 255 0 rfl rfl []).1]
  norm_num
  rfl

/-- C9: a message on a set topic whose payload is valid JSON but lacks the
`state` field makes `_handle_message` raise an uncaught `KeyError` (and a
non-integer `brightness` string raises `ValueError`) instead of logging at
error and ignoring; the exception propagates into `_dispatcher_loop`,
which terminates, so no later message on that connection is processed. -/
theorem claimC9_handler_exception_kills_dispatcher :
    _handle_message
        ⟨"homeassistant/light/cbus_1/set", some [("brightness", .jint 128)]⟩ =
        .error .keyError ∧
      (∀ rest, _dispatcher_loop
        (⟨"homeassistant/light/cbus_1/set", some [("brightness", .jint 128)]⟩ ::
          rest) = []) ∧
      _handle_message
        ⟨"homeassistant/light/cbus_1/set",
         some [("state", .jstr "ON"), ("brightness", .jstr "full")]⟩ =
        .error .valueError ∧
      (∀ rest, _dispatcher_loop
        (⟨"homeassistant/light/cbus_1/set",
          some [("state", .jstr "ON"), ("brightness", .jstr "full")]⟩ ::
          rest) = []) :=
  ⟨rfl, fun _ => rfl, rfl, fun _ => rfl⟩

theorem string_ext (s t : String) (h : s.data = t.data) : s = t := by
  cases s
  cases t
  exact congrArg String.mk h

theorem state_topic_data (g a : Nat) :
    (state_topic g a).data =
      LIGHT_TOPIC_HEAD.data ++
        ((ga_string g a false).data ++ '/' :: ['s', 't', 'a', 't', 'e']) := by
  show (LIGHT_TOPIC_HEAD ++ ga_string g a false ++ "/state").data = _
  rw [string_append_data, string_append_data, List.append_assoc]

theorem conf_topic_data (g a : Nat) :
    (conf_topic g a).data =
      LIGHT_TOPIC_HEAD.data ++
        ((ga_string g a false).data ++ '/' :: ['c', 'o', 'n', 'f', 'i', 'g']) := by
  show (LIGHT_TOPIC_HEAD ++ ga_string g a false ++ "/config").data = _
  rw [string_append_data, string_append_data, List.append_assoc]

theorem bin_sensor_conf_topic_data (g a : Nat) :
    (bin_sensor_conf_topic g a).data =
      BINSENSOR_TOPIC_HEAD.data ++
        ((ga_string g a false).data ++ '/' :: ['c', 'o', 'n', 'f', 'i', 'g']) := by
  show (BINSENSOR_TOPIC_HEAD ++ ga_string g a false ++ "/config").data = _
  rw [string_append_data, string_append_data, List.append_assoc]

theorem ga_eq_of_state_topic_eq {g a g2 a2 : Nat}
    (h : state_topic g a = state_topic g2 a2) :
    ga_string g a false = ga_string g2 a2 false := by
  have hd := congrArg String.data h
  rw [state_topic_data, state_topic_data] at hd
  exact string_ext _ _
    (List.append_cancel_right (List.append_cancel_left hd))

theorem conf_topic_congr {g a g2 a2 : Nat}
    (h : ga_string g a false = ga_string g2 a2 false) :
    conf_topic g a = conf_topic g2 a2 := by
  unfold conf_topic
  rw [h]

theorem bin_sensor_conf_topic_congr {g a g2 a2 : Nat}
    (h : ga_string g a false = ga_string g2 a2 false) :
    bin_sensor_conf_topic g a = bin_sensor_conf_topic g2 a2 := by
  unfold bin_sensor_conf_topic
  rw [h]

theorem set_topic_congr {g a g2 a2 : Nat}
    (h : ga_string g a false = ga_string g2 a2 false) :
    set_topic g a = set_topic g2 a2 := by
  unfold set_topic
  rw [h]

theorem lightHead_take15 (x : List Char) :
    (LIGHT_TOPIC_HEAD.data ++ x).take 15 = "homeassistant/l".data := rfl

theorem binHead_take15 (x : List Char) :
    (BINSENSOR_TOPIC_HEAD.data ++ x).take 15 = "homeassistant/b".data := rfl

theorem conf_topic_ne_state_topic (g a g2 a2 : Nat) :
    conf_topic g a ≠ state_topic g2 a2 := by
  intro h
  have hd := congrArg String.data h
  rw [conf_topic_data, state_topic_data] at hd
  have h2 := List.append_cancel_left hd
  have h3 := congrArg List.getLast? h2
  rw [List.getLast?_append_cons, List.getLast?_append_cons] at h3
  exact absurd h3 (by decide)

theorem bin_conf_topic_ne_state_topic (g a g2 a2 : Nat) :
    bin_sensor_conf_topic g a ≠ state_topic g2 a2 := by
  intro h
  have hd := congrArg (fun s => s.data.take 15) h
  simp only [bin_sensor_conf_topic_data, state_topic_data] at hd
  rw [binHead_take15, lightHead_take15] at hd
  exact absurd hd (by decide)

theorem isConfPub_congr {g a g2 a2 : Nat}
    (h : ga_string g a false = ga_string g2 a2 false) (e : Effect) :
    isConfPub g a e = isConfPub g2 a2 e := by
  cases e <;> simp [isConfPub, conf_topic_congr h]

theorem isBinConfPub_congr {g a g2 a2 : Nat}
    (h : ga_string g a false = ga_string g2 a2 false) (e : Effect) :
    isBinConfPub g a e = isBinConfPub g2 a2 e := by
  cases e <;> simp [isBinConfPub, bin_sensor_conf_topic_congr h]

theorem isSetSub_congr {g a g2 a2 : Nat}
    (h : ga_string g a false = ga_string g2 a2 false) (e : Effect) :
    isSetSub g a e = isSetSub g2 a2 e := by
  cases e <;> simp [isSetSub, set_topic_congr h]

theorem any_take_imp {p : Effect → Bool} {l : List Effect} {n : Nat}
    (h : (l.take n).any p = true) : l.any p = true := by
  rcases List.any_eq_true.1 h with ⟨x, hx, hpx⟩
  exact List.any_eq_true.2 ⟨x, List.mem_of_mem_take hx, hpx⟩

theorem dictGet_dictSet {α : Type} (d : List (Nat × α)) (k k2 : Nat) (v : α) :
    dictGet (dictSet d k v) k2 = if k = k2 then some v else dictGet d k2 := by
  induction d with
  | nil => rfl
  | cons p t ih =>
    obtain ⟨k3, v3⟩ := p
    by_cases h3 : k3 = k
    · subst h3
      simp only [dictSet, if_pos rfl, dictGet]
      by_cases h2 : k3 = k2 <;> simp [h2]
    · simp only [dictSet, if_neg h3, dictGet, ih]
      by_cases h2 : k3 = k2
      · subst h2
        have : ¬k = k3 := fun hh => h3 hh.symm
        simp [this]
      · simp [h2]

theorem dbGet_dbSetTrue_same (db : GroupDB) (g a : Nat) :
    dbGet (dbSetTrue db g a) g a = true := by
  unfold dbSetTrue dbGet
  cases hm : dictGet db a with
  | none => simp [dictGet_dictSet, dictGet]
  | some m => simp [dictGet_dictSet]

theorem dbGet_dbSetTrue_other (db : GroupDB) (g a g2 a2 : Nat)
    (h : ¬(a = a2 ∧ g = g2)) :
    dbGet (dbSetTrue db g2 a2) g a = dbGet db g a := by
  unfold dbSetTrue dbGet
  by_cases ha : a2 = a
  · subst ha
    have hg : ¬g2 = g := fun hh => h ⟨rfl, hh.symm⟩
    cases hm : dictGet db a2 with
    | none => simp [dictGet_dictSet, hm, dictGet, hg]
    | some m => simp [dictGet_dictSet, hm, dictGet, hg]
  · cases hm : dictGet db a2 with
    | none => simp [dictGet_dictSet, ha, hm]
    | some m => simp [dictGet_dictSet, ha, hm]

theorem applyGEvent_chunk (db : GroupDB) (e : GEvent) :
    ∃ p : JObj, ∃ bs : String,
      applyGEvent db e =
        ((check_published db e.pair.1 e.pair.2).1,
         (check_published db e.pair.1 e.pair.2).2 ++
           [.publishJson (state_topic e.pair.1 e.pair.2) p 1 true,
            .publishStr (bin_sensor_state_topic e.pair.1 e.pair.2) bs 1 true]) := by
  cases e with
  | evOn s g a => exact ⟨_, _, rfl⟩
  | evOff s g a => exact ⟨_, _, rfl⟩
  | evRamp s g a d l => exact ⟨_, _, rfl⟩

theorem check_published_false (db : GroupDB) (g a : Nat)
    (h : dbGet db g a = false) :
    check_published db g a =
      (dbSetTrue db g a,
       [.subscribeTopic (set_topic g a) 2,
        .publishJson (conf_topic g a)
          (lightConfigPayload g a (default_light_name g a)) 1 true,
        .publishJson (bin_sensor_conf_topic g a)
          (sensorConfigPayload g a (default_light_name g a)) 1 true]) := by
  unfold check_published
  rw [h]
  rfl

theorem check_published_true (db : GroupDB) (g a : Nat)
    (h : dbGet db g a = true) : check_published db g a = (db, []) := by
  unfold check_published
  rw [h]
  rfl

theorem discoveryPrecedes_append (tr ch : List Effect) (g a : Nat)
    (htr : discoveryPrecedesState tr g a)
    (hch : ∀ m, (ch.take m).any (isStatePub g a) = true →
      (((ch.take m).any (isConfPub g a) = true ∨ tr.any (isConfPub g a) = true) ∧
       ((ch.take m).any (isBinConfPub g a) = true ∨
         tr.any (isBinConfPub g a) = true) ∧
       ((ch.take m).any (isSetSub g a) = true ∨ tr.any (isSetSub g a) = true))) :
    discoveryPrecedesState (tr ++ ch) g a := by
  intro n hst
  have mkgoal : ∀ p : Effect → Bool,
      (tr.take n).any p = true ∨ (ch.take (n - tr.length)).any p = true →
      ((tr ++ ch).take n).any p = true := by
    intro p hp
    rw [List.take_append_eq_append_take, List.any_append, Bool.or_eq_true]
    exact hp
  rw [List.take_append_eq_append_take, List.any_append, Bool.or_eq_true] at hst
  rcases hst with hst | hst
  · obtain ⟨h1, h2, h3⟩ := htr n hst
    exact ⟨mkgoal _ (Or.inl h1), mkgoal _ (Or.inl h2), mkgoal _ (Or.inl h3)⟩
  · have hpos : n - tr.length ≠ 0 := by
      intro h0
      rw [h0] at hst
      simp at hst
    have htrfull : tr.take n = tr := List.take_of_length_le (by omega)
    obtain ⟨h1, h2, h3⟩ := hch (n - tr.length) hst
    refine ⟨mkgoal _ ?_, mkgoal _ ?_, mkgoal _ ?_⟩
    · rcases h1 with h1 | h1
      · exact Or.inr h1
      · exact Or.inl (by rw [htrfull]; exact h1)
    · rcases h2 with h2 | h2
      · exact Or.inr h2
      · exact Or.inl (by rw [htrfull]; exact h2)
    · rcases h3 with h3 | h3
      · exact Or.inr h3
      · exact Or.inl (by rw [htrfull]; exact h3)

theorem chunk2_state (g a g0 a0 : Nat) (p : JObj) (bs : String) (m : Nat)
    (h : (([Effect.publishJson (state_topic g0 a0) p 1 true,
            Effect.publishStr (bin_sensor_state_topic g0 a0) bs 1 true].take
        m).any (isStatePub g a)) = true) :
    state_topic g0 a0 = state_topic g a := by
  have h2 := any_take_imp h
  simp [isStatePub] at h2
  exact h2

theorem chunk5_state (g a g0 a0 : Nat) (q1 q2 p : JObj) (bs : String) (m : Nat)
    (h : (([Effect.subscribeTopic (set_topic g0 a0) 2,
            Effect.publishJson (conf_topic g0 a0) q1 1 true,
            Effect.publishJson (bin_sensor_conf_topic g0 a0) q2 1 true,
            Effect.publishJson (state_topic g0 a0) p 1 true,
            Effect.publishStr (bin_sensor_state_topic g0 a0) bs 1 true].take
        m).any (isStatePub g a)) = true) :
    state_topic g0 a0 = state_topic g a ∧ 4 ≤ m := by
  rcases m with _ | _ | _ | _ | m
  · simp at h
  · simp [isStatePub] at h
  · simp [isStatePub, conf_topic_ne_state_topic g0 a0 g a] at h
  · simp [isStatePub, conf_topic_ne_state_topic g0 a0 g a,
      bin_conf_topic_ne_state_topic g0 a0 g a] at h
  · refine ⟨?_, by omega⟩
    have h2 := any_take_imp h
    simp [isStatePub, conf_topic_ne_state_topic g0 a0 g a,
      bin_conf_topic_ne_state_topic g0 a0 g a] at h2
    exact h2

theorem chunk5_has_discovery {g a g0 a0 : Nat} (q1 q2 p : JObj) (bs : String)
    {m : Nat} (hga : ga_string g0 a0 false = ga_string g a false)
    (hm : 4 ≤ m) :
    (([Effect.subscribeTopic (set_topic g0 a0) 2,
       Effect.publishJson (conf_topic g0 a0) q1 1 true,
       Effect.publishJson (bin_sensor_conf_topic g0 a0) q2 1 true,
       Effect.publishJson (state_topic g0 a0) p 1 true,
       Effect.publishStr (bin_sensor_state_topic g0 a0) bs 1 true].take
        m).any (isConfPub g a)) = true ∧
    (([Effect.subscribeTopic (set_topic g0 a0) 2,
       Effect.publishJson (conf_topic g0 a0) q1 1 true,
       Effect.publishJson (bin_sensor_conf_topic g0 a0) q2 1 true,
       Effect.publishJson (state_topic g0 a0) p 1 true,
       Effect.publishStr (bin_sensor_state_topic g0 a0) bs 1 true].take
        m).any (isBinConfPub g a)) = true ∧
    (([Effect.subscribeTopic (set_topic g0 a0) 2,
       Effect.publishJson (conf_topic g0 a0) q1 1 true,
       Effect.publishJson (bin_sensor_conf_topic g0 a0) q2 1 true,
       Effect.publishJson (state_topic g0 a0) p 1 true,
       Effect.publishStr (bin_sensor_state_topic g0 a0) bs 1 true].take
        m).any (isSetSub g a)) = true := by
  obtain ⟨k, rfl⟩ : ∃ k, m = k + 4 := ⟨m - 4, by omega⟩
  refine ⟨?_, ?_, ?_⟩ <;>
    simp [isConfPub, isBinConfPub, isSetSub, conf_topic_congr hga,
      bin_sensor_conf_topic_congr hga, set_topic_congr hga]

theorem runGEvents_cons (db : GroupDB) (e : GEvent) (es : List GEvent) :
    runGEvents db (e :: es) =
      ((runGEvents (applyGEvent db e).1 es).1,
       (applyGEvent db e).2 ++ (runGEvents (applyGEvent db e).1 es).2) := by
  rcases h1 : applyGEvent db e with ⟨db1, tr1⟩
  rcases h2 : runGEvents db1 es with ⟨db2, tr2⟩
  simp [runGEvents, h1, h2]

theorem applyGEvent_preserves (db : GroupDB) (tr : List Effect) (e : GEvent)
    (hcov : dbCoveredBy db tr)
    (hpre : ∀ g a, discoveryPrecedesState tr g a) :
    dbCoveredBy (applyGEvent db e).1 (tr ++ (applyGEvent db e).2) ∧
      ∀ g a, discoveryPrecedesState (tr ++ (applyGEvent db e).2) g a := by
  obtain ⟨p, bs, hch⟩ := applyGEvent_chunk db e
  rw [hch]
  cases h0 : dbGet db e.pair.1 e.pair.2 with
  | true =>
    rw [check_published_true _ _ _ h0]
    dsimp only
    rw [List.nil_append]
    constructor
    · intro g a hga
      obtain ⟨h1, h2, h3⟩ := hcov g a hga
      refine ⟨?_, ?_, ?_⟩ <;> rw [List.any_append] <;> simp [h1, h2, h3]
    · intro g a
      refine discoveryPrecedes_append tr _ g a (hpre g a) ?_
      intro m hstm
      have heq := chunk2_state g a e.pair.1 e.pair.2 p bs m hstm
      have hga := ga_eq_of_state_topic_eq heq
      obtain ⟨h1, h2, h3⟩ := hcov e.pair.1 e.pair.2 h0
      rw [show isConfPub e.pair.1 e.pair.2 = isConfPub g a from
        funext (isConfPub_congr hga)] at h1
      rw [show isBinConfPub e.pair.1 e.pair.2 = isBinConfPub g a from
        funext (isBinConfPub_congr hga)] at h2
      rw [show isSetSub e.pair.1 e.pair.2 = isSetSub g a from
        funext (isSetSub_congr hga)] at h3
      exact ⟨Or.inr h1, Or.inr h2, Or.inr h3⟩
  | false =>
    rw [check_published_false _ _ _ h0]
    dsimp only
    rw [List.cons_append, List.cons_append, List.cons_append, List.nil_append]
    constructor
    · intro g a hga
      by_cases hp : e.pair.2 = a ∧ e.pair.1 = g
      · obtain ⟨hpa, hpg⟩ := hp
        subst hpa
        subst hpg
        refine ⟨?_, ?_, ?_⟩ <;> rw [List.any_append] <;>
          simp [isConfPub, isBinConfPub, isSetSub]
      · have hp2 : ¬(a = e.pair.2 ∧ g = e.pair.1) :=
          fun hq => hp ⟨hq.1.symm, hq.2.symm⟩
        rw [dbGet_dbSetTrue_other db g a e.pair.1 e.pair.2 hp2] at hga
        obtain ⟨h1, h2, h3⟩ := hcov g a hga
        refine ⟨?_, ?_, ?_⟩ <;> rw [List.any_append] <;> simp [h1, h2, h3]
    · intro g a
      refine discoveryPrecedes_append tr _ g a (hpre g a) ?_
      intro m hstm
      obtain ⟨heq, hm⟩ := chunk5_state g a e.pair.1 e.pair.2 _ _ p bs m hstm
      have hga := ga_eq_of_state_topic_eq heq
      obtain ⟨h1, h2, h3⟩ := chunk5_has_discovery _ _ p bs hga hm
      exact ⟨Or.inl h1, Or.inl h2, Or.inl h3⟩

theorem runGEvents_preserves (evs : List GEvent) :
    ∀ (db : GroupDB) (tr : List Effect), dbCoveredBy db tr →
      (∀ g a, discoveryPrecedesState tr g a) →
      (dbCoveredBy (runGEvents db evs).1 (tr ++ (runGEvents db evs).2) ∧
       ∀ g a, discoveryPrecedesState (tr ++ (runGEvents db evs).2) g a) := by
  induction evs with
  | nil =>
    intro db tr hcov hpre
    simpa [runGEvents] using ⟨hcov, hpre⟩
  | cons e es ih =>
    intro db tr hcov hpre
    obtain ⟨hcov2, hpre2⟩ := applyGEvent_preserves db tr e hcov hpre
    have hrec := ih (applyGEvent db e).1 (tr ++ (applyGEvent db e).2) hcov2 hpre2
    rw [runGEvents_cons]
    dsimp only
    rw [← List.append_assoc]
    exact hrec

theorem dbGet_applyGEvent (db : GroupDB) (e : GEvent) (g a : Nat) :
    dbGet (applyGEvent db e).1 g a = true ↔
      (e.pair = (g, a) ∨ dbGet db g a = true) := by
  obtain ⟨p, bs, hch⟩ := applyGEvent_chunk db e
  rw [hch]
  cases h0 : dbGet db e.pair.1 e.pair.2 with
  | true =>
    rw [check_published_true _ _ _ h0]
    dsimp only
    constructor
    · exact fun h => Or.inr h
    · intro h
      rcases h with h | h
      · have h1 : e.pair.1 = g := congrArg Prod.fst h
        have h2 : e.pair.2 = a := congrArg Prod.snd h
        rw [← h1, ← h2]
        exact h0
      · exact h
  | false =>
    rw [check_published_false _ _ _ h0]
    dsimp only
    constructor
    · intro h
      by_cases hp : e.pair.2 = a ∧ e.pair.1 = g
      · exact Or.inl (Prod.ext_iff.mpr ⟨hp.2, hp.1⟩)
      · have hp2 : ¬(a = e.pair.2 ∧ g = e.pair.1) :=
          fun hq => hp ⟨hq.1.symm, hq.2.symm⟩
        rw [dbGet_dbSetTrue_other db g a e.pair.1 e.pair.2 hp2] at h
        exact Or.inr h
    · intro h
      rcases h with h | h
      · have h1 : e.pair.1 = g := congrArg Prod.fst h
        have h2 : e.pair.2 = a := congrArg Prod.snd h
        rw [← h1, ← h2]
        exact dbGet_dbSetTrue_same db e.pair.1 e.pair.2
      · by_cases hp : e.pair.2 = a ∧ e.pair.1 = g
        · obtain ⟨hpa, hpg⟩ := hp
          rw [← hpa, ← hpg]
          exact dbGet_dbSetTrue_same db e.pair.1 e.pair.2
        · have hp2 : ¬(a = e.pair.2 ∧ g = e.pair.1) :=
            fun hq => hp ⟨hq.1.symm, hq.2.symm⟩
          rw [dbGet_dbSetTrue_other db g a e.pair.1 e.pair.2 hp2]
          exact h

theorem runGEvents_dbGet (evs : List GEvent) :
    ∀ (db : GroupDB) (g a : Nat),
      dbGet (runGEvents db evs).1 g a = true ↔
        (dbGet db g a = true ∨ ∃ e ∈ evs, e.pair = (g, a)) := by
  induction evs with
  | nil =>
    intro db g a
    simp [runGEvents]
  | cons e es ih =>
    intro db g a
    rw [runGEvents_cons]
    dsimp only
    rw [ih (applyGEvent db e).1 g a, dbGet_applyGEvent db e g a]
    constructor
    · intro h
      rcases h with (h | h) | h
      · exact Or.inr ⟨e, by simp, h⟩
      · exact Or.inl h
      · obtain ⟨e2, he2, hp⟩ := h
        exact Or.inr ⟨e2, by simp [he2], hp⟩
    · intro h
      rcases h with h | h
      · exact Or.inl (Or.inr h)
      · obtain ⟨e2, he2, hp⟩ := h
        rcases List.mem_cons.1 he2 with he3 | he3
        · subst he3
          exact Or.inl (Or.inl hp)
        · exact Or.inr ⟨e2, he3, hp⟩

/-- C10: in the trace produced by relaying any sequence of C-Bus lighting
events (on, off, ramp) into the MQTT client, every retained state
publication for a pair is preceded by that pair's discovery effects — the
light config publish, the binary-sensor config publish and the set-topic
subscription all occur in every trace prefix that contains a state publish
(so discovery precedes the pair's first state publish); `groupDB` marks a
pair exactly when some event concerned it, and once marked it stays marked
under any further events (until the session clears the set). -/
theorem claimC10_discovery_precedes_state (evs : List GEvent) (g a : Nat) :
    discoveryPrecedesState (runGEvents [] evs).2 g a ∧
      (dbGet (runGEvents [] evs).1 g a = true ↔ ∃ e ∈ evs, e.pair = (g, a)) ∧
      (∀ evs2, dbGet (runGEvents [] evs).1 g a = true →
        dbGet (runGEvents (runGEvents [] evs).1 evs2).1 g a = true) := by
  refine ⟨?_, ?_, ?_⟩
  · have h := (runGEvents_preserves evs [] []
      (fun g2 a2 h2 => by simp [dbGet, dictGet] at h2)
      (fun g2 a2 n h2 => by simp at h2)).2 g a
    simpa using h
  · have h := runGEvents_dbGet evs [] g a
    simpa [dbGet, dictGet] using h
  · intro evs2 h
    exact (runGEvents_dbGet evs2 (runGEvents [] evs).1 g a).mpr (Or.inl h)

theorem claimC10_discovery_precedes_state_witness :
    dbGet (runGEvents [] [.evOn none 1 56]).1 1 56 = true :=
  (claimC10_discovery_precedes_state [.evOn none 1 56] 1 56).2.1.mpr
    ⟨.evOn none 1 56, by simp, rfl⟩

end Cbus
